import Mathlib

/-!
Shallow embedding of the prompt-to-edit pipeline implemented in
`src/src-tauri/src/lib.rs` of the vibe-editor repository, together with
theorems settling the specification claims about it.

External effects (the sqlite store, the remote inference call made through
curl, the ffmpeg/ffprobe/node subprocesses) are modelled as inputs collected
in an environment record: each field holds the outcome the external world
produced for the single invocation the source code performs.  The pure
decision logic (filter resolution, normalization, watermarking, error
classification, overlay adoption, persistence of the project record) is
translated function by function from the source.
-/

/-! ### String helpers

The Rust code uses `str::to_lowercase`, `str::contains`, `str::lines`,
`str::is_empty` and `Path::with_file_name`.  They are modelled here on
`List Char` so that every definition evaluates by kernel reduction.
`lower_char` is the ASCII case mapping; all keywords the source compares
against are ASCII, so this agrees with Rust's Unicode lowercasing on every
character that matters for the classification. -/

/-- ASCII lower-casing of a single character (models Rust lowercasing on the
ASCII range, which covers every keyword used by the source). -/
def lower_char (c : Char) : Char :=
  if 65 ≤ c.toNat ∧ c.toNat ≤ 90 then Char.ofNat (c.toNat + 32) else c

/-- Models Rust `str::to_lowercase` (ASCII range). -/
def to_lower (s : String) : String := String.mk (s.data.map lower_char)

/-- Models Rust `str::contains(needle)`: some tail of the haystack starts
with the needle. -/
def contains_substr (haystack needle : String) : Bool :=
  haystack.data.tails.any (fun t => needle.data.isPrefixOf t)

/-- Splits a character list on a separator character; a trailing separator
yields a trailing empty segment (the raw split underlying Rust and
`String.splitOn`). -/
def split_on_char (sep : Char) : List Char → List (List Char)
  | [] => [[]]
  | c :: rest =>
    if c = sep then [] :: split_on_char sep rest
    else
      match split_on_char sep rest with
      | [] => [[c]]
      | l :: ls => (c :: l) :: ls

/-- Strips one trailing carriage return, as Rust `str::lines` does on each
line. -/
def strip_cr (l : List Char) : List Char :=
  match l.getLast? with
  | some c => if c = '\x0d' then l.dropLast else l
  | none => l

/-- Models Rust `str::lines`: split on newline, drop the empty segment a
trailing newline produces, strip a trailing carriage return per line. -/
def rust_lines (s : String) : List String :=
  let parts := split_on_char '\n' s.data
  let parts := if parts.getLast? = some [] then parts.dropLast else parts
  parts.map (fun l => String.mk (strip_cr l))

/-- Models Rust `Path::with_file_name` for ordinary file paths: the final
path component is replaced by the given name. -/
def with_file_name (path name : String) : String :=
  match (split_on_char '/' path.data).dropLast with
  | [] => name
  | dirs => String.intercalate "/" (dirs.map String.mk) ++ "/" ++ name

/-! ### JSON model

The inference response travels through two `serde_json` parse stages.  JSON
values are modelled by an inductive; the act of parsing a byte/text blob
into such a value is the external library's job and is supplied by the
environment (`parseJson` below), while the typed extraction the source
performs on the parsed value (`serde` derives for the response structs, the
`value["filters"]` index, `as_array`, `as_str`) is translated here. -/

/-- JSON values, as produced by the external JSON parser. -/
inductive Json where
  | null : Json
  | bool : Bool → Json
  | num : Int → Json
  | str : String → Json
  | arr : List Json → Json
  | obj : List (String × Json) → Json

/-- Field lookup on a JSON object; `none` when the value is not an object or
the field is absent. -/
def Json.getField (j : Json) (key : String) : Option Json :=
  match j with
  | .obj fields => (fields.find? (fun kv => kv.1 == key)).map (fun kv => kv.2)
  | _ => none

/-- Models `serde_json::Value` bracket indexing: `Null` when absent or when
the value is not an object. -/
def Json.index (j : Json) (key : String) : Json :=
  match j.getField key with
  | some v => v
  | none => .null

/-- Models `Value::as_array`. -/
def Json.as_array : Json → Option (List Json)
  | .arr xs => some xs
  | _ => none

/-- Models `Value::as_str`. -/
def Json.as_str : Json → Option String
  | .str s => some s
  | _ => none

/-- Mirror of the `GeminiPart` struct (`text: String`). -/
structure GeminiPart where
  text : String

/-- Mirror of the `GeminiContent` struct (`parts: Vec<GeminiPart>`). -/
structure GeminiContent where
  parts : List GeminiPart

/-- Mirror of the `GeminiCandidate` struct (`content: GeminiContent`). -/
structure GeminiCandidate where
  content : GeminiContent

/-- Mirror of the `GeminiResponse` struct (`candidates: Vec<GeminiCandidate>`). -/
structure GeminiResponse where
  candidates : List GeminiCandidate

/-- Decodes a list element-wise, failing as soon as one element fails (the
behaviour of `serde` deserializing a `Vec`). -/
def decodeJsonList (dec : Json → Except String α) : Json → Except String (List α)
  | .arr xs => xs.mapM dec
  | _ => .error "expected array"

/-- Typed decoding of `GeminiPart` as the `serde` derive performs it; the
exact error text is abbreviated (the source stringifies and then discards
it on the fallback path). -/
def decodeGeminiPart (j : Json) : Except String GeminiPart :=
  match j.getField "text" with
  | some (.str s) => .ok { text := s }
  | some _ => .error "invalid type for field text"
  | none => .error "missing field text"

/-- Typed decoding of `GeminiContent`. -/
def decodeGeminiContent (j : Json) : Except String GeminiContent :=
  match j.getField "parts" with
  | some v =>
    match decodeJsonList decodeGeminiPart v with
    | .ok parts => .ok { parts := parts }
    | .error e => .error e
  | none => .error "missing field parts"

/-- Typed decoding of `GeminiCandidate`. -/
def decodeGeminiCandidate (j : Json) : Except String GeminiCandidate :=
  match j.getField "content" with
  | some v =>
    match decodeGeminiContent v with
    | .ok content => .ok { content := content }
    | .error e => .error e
  | none => .error "missing field content"

/-- Typed decoding of `GeminiResponse` (the target of
`serde_json::from_slice` in the source). -/
def decodeGeminiResponse (j : Json) : Except String GeminiResponse :=
  match j.getField "candidates" with
  | some v =>
    match decodeJsonList decodeGeminiCandidate v with
    | .ok candidates => .ok { candidates := candidates }
    | .error e => .error e
  | none => .error "missing field candidates"

/-! ### Embedding of the source functions -/

/-- Output of one external process invocation (`std::process::Output`):
exit-status success flag, captured stdout and stderr (already decoded to
text, as `String::from_utf8_lossy` does in the source). -/
structure ProcOutput where
  exitSuccess : Bool
  stdout : String
  stderr : String
deriving DecidableEq

/-- Mirror of `fn drawtext_font`.  The source selects a macOS font path
under `cfg(target_os = "macos")` and this one otherwise; either way it is a
fixed constant, and the non-macOS branch is the one embedded. -/
def drawtext_font : String := "fontfile=FreeSerif.ttf"

/-- Mirror of `fn watermark_filter`: the fixed TRIAL drawtext directive. -/
def watermark_filter : String :=
  "drawtext=" ++ drawtext_font ++ ":text='TRIAL':x=16:y=16:fontsize=24:fontcolor=white"

/-- The `while filters.len() < 3` push loop of `ensure_three_filters`.  The
loop appends one directive per iteration and stops once the length reaches
3, so it never iterates more than three times; it is modelled structurally
with that iteration bound as fuel. -/
def pad_loop (fuel : Nat) (filters : List String) : List String :=
  match fuel with
  | 0 => filters
  | Nat.succ n =>
    if filters.length < 3 then pad_loop n (filters ++ ["hue=s=1"]) else filters

/-- Mirror of `fn ensure_three_filters`: pad with the neutral saturation
directive while shorter than 3, then truncate to 3. -/
def ensure_three_filters (filters : List String) : List String :=
  (pad_loop 3 filters).take 3

/-- Mirror of `fn wants_overlay`: lower-case the prompt and test the four
overlay keywords. -/
def wants_overlay (prompt : String) : Bool :=
  let p := to_lower prompt
  contains_substr p "add animation"
    || contains_substr p "animation in between"
    || contains_substr p "transparent overlay"
    || contains_substr p "overlay"

/-- The energetic chain built inline by `fallback_filters`. -/
def energetic_chain : List String :=
  ["setpts=0.85*PTS", "hue=s=1.25",
   "drawtext=" ++ drawtext_font ++ ":text='VIBE: ENERGETIC':x=16:y=16:fontsize=24:fontcolor=white"]

/-- The chill chain built inline by `fallback_filters`. -/
def chill_chain : List String :=
  ["setpts=1.05*PTS", "hue=s=0.8",
   "drawtext=" ++ drawtext_font ++ ":text='VIBE: CHILL':x=16:y=16:fontsize=24:fontcolor=white"]

/-- The default action chain built inline by `fallback_filters`. -/
def action_chain : List String :=
  ["setpts=1.0*PTS", "hue=s=1.0",
   "drawtext=" ++ drawtext_font ++ ":text='VIBE: ACTION':x=16:y=16:fontsize=24:fontcolor=white"]

/-- Mirror of `fn fallback_filters`: lower-case the prompt, then classify
energetic before chill before the action default, first match winning. -/
def fallback_filters (prompt : String) : List String :=
  let prompt := to_lower prompt
  if contains_substr prompt "energetic" || contains_substr prompt "fast" then
    energetic_chain
  else if contains_substr prompt "chill" || contains_substr prompt "calm" then
    chill_chain
  else
    action_chain

/-- Environment of one `gemini_filters` invocation: the credential lookup
(`GEMINI_API_KEY`), the outcome of the curl subprocess (`Except` covers the
launch error of `.output()`), and the external JSON parser applied to text
(both `serde_json::from_slice` on the body and `from_str` on the inner
text; a structured-decode failure of the envelope is composed on top of it
below). -/
structure GeminiEnv where
  apiKey : Option String
  curl : Except String ProcOutput
  parseJson : String → Except String Json

/-- The instruction text the source embeds the prompt into (the request
body sent to the inference service; it has no further effect inside the
embedding, where the service's answer is an environment input). -/
def gemini_request_text (prompt : String) : String :=
  "Return ONLY JSON: \x7b\"filters\":[\"ffmpeg_filter_1\",\"ffmpeg_filter_2\",\"ffmpeg_filter_3\"]\x7d for this prompt: "
    ++ prompt

/-- Mirror of `fn gemini_filters`: require the credential, run curl, require
a successful exit, parse the envelope, extract the first candidate's first
part's text, parse that text as JSON, and collect the string entries of its
`filters` array (non-strings silently dropped).  Every failure is an
`Except.error`. -/
def gemini_filters (prompt : String) (genv : GeminiEnv) : Except String (List String) :=
  let _ := gemini_request_text prompt
  match genv.apiKey with
  | none => .error "GEMINI_API_KEY not set"
  | some _ =>
    match genv.curl with
    | .error e => .error e
    | .ok output =>
      if output.exitSuccess = false then .error output.stderr
      else
        match (genv.parseJson output.stdout).bind decodeGeminiResponse with
        | .error e => .error e
        | .ok response =>
          match (response.candidates.get? 0).bind (fun c => c.content.parts.get? 0) with
          | none => .error "Gemini response missing text"
          | some part =>
            match genv.parseJson part.text with
            | .error e => .error e
            | .ok json_value =>
              match (Json.index json_value "filters").as_array with
              | none => .error "Gemini JSON missing filters"
              | some arr => .ok (arr.filterMap Json.as_str)

/-- One row of the `licenses` table (`license_key` text, `valid` integer,
compared against 1 by the query). -/
structure LicenseRow where
  license_key : String
  valid : Int
deriving DecidableEq

/-- Mirror of `fn is_license_valid`: the sqlite query
`SELECT license_key FROM licenses WHERE license_key = ? AND valid = 1 LIMIT 1`
followed by `fetch_optional`/`is_some`.  The `Except` argument is the
outcome of reaching the store: a connectivity error is propagated, and an
absent row is the normal `false` result. -/
def is_license_valid (key : String) (q : Except String (List LicenseRow)) :
    Except String Bool :=
  match q with
  | .error e => .error e
  | .ok rows => .ok (rows.any (fun r => r.license_key == key && r.valid == 1))

/-- The licensing step of `vibe_edit` (lines 201-205): query only when a key
was supplied, otherwise `false` without touching the store. -/
def license_step (license_key : Option String) (q : Except String (List LicenseRow)) :
    Except String Bool :=
  match license_key with
  | some key => is_license_valid key q
  | none => .ok false

/-- The resolver step of `vibe_edit` (lines 207-210): use the remote result
when it succeeded, otherwise the deterministic fallback, recording which
path was taken. -/
def resolve_filters (prompt : String) (genv : GeminiEnv) : List String × Bool :=
  match gemini_filters prompt genv with
  | .ok filters => (filters, true)
  | .error _ => (fallback_filters prompt, false)

/-- The watermark injection of `vibe_edit` (lines 213-220): when unlicensed,
overwrite index 2 if the chain has at least 3 entries, otherwise append. -/
def inject_watermark (licensed : Bool) (filters : List String) : List String :=
  if !licensed then
    if 3 ≤ filters.length then filters.set 2 watermark_filter
    else filters ++ [watermark_filter]
  else filters

/-- The directive chain `vibe_edit` sends to the transcoder for a given
prompt, resolver environment and licensing outcome: resolve, normalize to
three entries, inject the watermark when unlicensed. -/
def applied_chain (prompt : String) (genv : GeminiEnv) (licensed : Bool) : List String :=
  inject_watermark licensed (ensure_three_filters (resolve_filters prompt genv).1)

/-- Mirror of the `VibeEditResult` struct returned to the caller. -/
structure VibeEditResult where
  output_path : String
  filters : List String
  used_gemini : Bool
  trial_watermark : Bool
deriving DecidableEq

/-- One row inserted into the `projects` table. -/
structure ProjectRecord where
  input_path : String
  output_path : String
  prompt : String
deriving DecidableEq

/-- Environment of one `vibe_edit` invocation: the outcome of reaching the
`licenses` table, the resolver environment, the ffmpeg invocation outcome
(`Except` covers the launch error of `.output()`), whether
`remotion/render.mjs` exists, the node overlay invocation outcome, and the
outcome of the `INSERT INTO projects` statement.  The ffprobe duration call
feeds only an argument string of the node process and is absorbed by
`unwrap_or(30.0)` in the source, so it has no observable effect here. -/
structure Env where
  licenseQuery : Except String (List LicenseRow)
  geminiEnv : GeminiEnv
  ffmpeg : Except String ProcOutput
  scriptExists : Bool
  nodeRun : Except String ProcOutput
  insertOutcome : Except String Unit

/-- Observable outcome of one `vibe_edit` run: the value returned to the
caller, the list of project rows persisted during the run, the filter-graph
string passed to ffmpeg with `-vf` (when the invocation was reached), and
the overlay decision (when that stage was reached). -/
structure RunTrace where
  result : Except String VibeEditResult
  persisted : List ProjectRecord
  sent_vf : Option String
  overlay_attempted : Option Bool

/-- Bounded diagnostic message built by `vibe_edit` when ffmpeg exits
non-zero (lines 245-254): the fixed generic message when stderr is empty,
otherwise the first at-most-5 stderr lines joined with spaces after the
fixed failure prefix. -/
def ffmpeg_fail_msg (stderr : String) : String :=
  if stderr.data.isEmpty then
    "FFmpeg failed (no stderr). Check ffmpeg is installed and path is valid."
  else
    "FFmpeg failed: " ++ String.intercalate " " ((rust_lines stderr).take 5)

/-- The overlay-compositing block of `vibe_edit` (lines 256-280), producing
the final output path: when the overlay runs and the entry-point script
exists, a node launch error is propagated by the source's `?` operator,
while a non-zero node exit (or a missing script, or not running at all)
keeps the pre-overlay output path. -/
def overlay_result (input_path output : String) (env : Env) (run_overlay : Bool) :
    Except String String :=
  if run_overlay then
    let overlay_out := with_file_name input_path "vibe_output_overlay.mp4"
    if env.scriptExists then
      match env.nodeRun with
      | .error e => .error e
      | .ok node_out => .ok (if node_out.exitSuccess then overlay_out else output)
    else .ok output
  else .ok output

/-- Body of `vibe_edit` after the licensing step: filter resolution with
fallback, normalization, watermark injection, ffmpeg transcode with bounded
failure diagnostics, conditional overlay compositing, and persistence of
the project record. -/
def edit_after_license (input_path prompt : String) (add_overlay : Option Bool)
    (env : Env) (licensed : Bool) : RunTrace :=
  let resolved := resolve_filters prompt env.geminiEnv
  let filters := inject_watermark licensed (ensure_three_filters resolved.1)
  let output := with_file_name input_path "vibe_output.mp4"
  let filter_desc := String.intercalate "," filters
  match env.ffmpeg with
  | .error e =>
    { result := .error e, persisted := [], sent_vf := some filter_desc,
      overlay_attempted := none }
  | .ok ffmpeg_out =>
    if ffmpeg_out.exitSuccess = false then
      { result := .error (ffmpeg_fail_msg ffmpeg_out.stderr), persisted := [],
        sent_vf := some filter_desc, overlay_attempted := none }
    else
      let run_overlay := add_overlay.getD (wants_overlay prompt)
      match overlay_result input_path output env run_overlay with
      | .error e =>
        { result := .error e, persisted := [], sent_vf := some filter_desc,
          overlay_attempted := some run_overlay }
      | .ok final_output =>
        match env.insertOutcome with
        | .error e =>
          { result := .error e, persisted := [], sent_vf := some filter_desc,
            overlay_attempted := some run_overlay }
        | .ok _ =>
          { result := .ok
              { output_path := final_output, filters := filters,
                used_gemini := resolved.2, trial_watermark := !licensed },
            persisted :=
              [{ input_path := input_path, output_path := final_output, prompt := prompt }],
            sent_vf := some filter_desc,
            overlay_attempted := some run_overlay }

/-- Mirror of `fn vibe_edit` (the command orchestrating one edit request):
the licensing step followed by `edit_after_license`. -/
def vibe_edit (input_path prompt : String) (license_key : Option String)
    (add_overlay : Option Bool) (env : Env) : RunTrace :=
  match license_step license_key env.licenseQuery with
  | .error e =>
    { result := .error e, persisted := [], sent_vf := none, overlay_attempted := none }
  | .ok licensed => edit_after_license input_path prompt add_overlay env licensed

/-! ### Concrete environments used to instantiate the theorems -/

/-- Resolver environment with no credential configured: the remote path
fails immediately. -/
def genv_no_key : GeminiEnv :=
  { apiKey := none, curl := Except.error "unused",
    parseJson := fun _ => Except.error "unused" }

/-- A well-formed inference-response envelope whose inner text is the
token recognised by `genv_empty_remote.parseJson`. -/
def envelope_json : Json :=
  .obj [("candidates",
    .arr [.obj [("content", .obj [("parts", .arr [.obj [("text", .str "INNER")]])])]])]

/-- Resolver environment in which the remote path succeeds structurally but
the inner `filters` array is empty. -/
def genv_empty_remote : GeminiEnv :=
  { apiKey := some "k",
    curl := Except.ok { exitSuccess := true, stdout := "ENVELOPE", stderr := "" },
    parseJson := fun s =>
      if s = "ENVELOPE" then Except.ok envelope_json
      else if s = "INNER" then Except.ok (.obj [("filters", .arr [])])
      else Except.error "unparsed" }

/-- Environment in which every external step succeeds, no license row
exists, no credential is configured and the overlay script is absent. -/
def env_ok : Env :=
  { licenseQuery := Except.ok [],
    geminiEnv := genv_no_key,
    ffmpeg := Except.ok { exitSuccess := true, stdout := "", stderr := "" },
    scriptExists := false,
    nodeRun := Except.ok { exitSuccess := true, stdout := "", stderr := "" },
    insertOutcome := Except.ok () }

/-- Environment in which ffmpeg exits non-zero with empty stderr. -/
def env_ffmpeg_fail : Env :=
  { env_ok with ffmpeg := Except.ok { exitSuccess := false, stdout := "", stderr := "" } }

/-- Environment in which the overlay script exists but launching the node
process errors. -/
def env_overlay_launch_fail : Env :=
  { env_ok with scriptExists := true, nodeRun := Except.error "node launch failed" }

/-- Environment holding one valid license row. -/
def env_lic : Env :=
  { env_ok with licenseQuery := Except.ok [{ license_key := "KEY1", valid := 1 }] }

/-- Environment whose remote path succeeds with an empty filters array. -/
def env_remote_empty : Env :=
  { env_ok with geminiEnv := genv_empty_remote }

/-- The outcome of the successful energetic run used as a C9 instance. -/
def res_fast : VibeEditResult :=
  { output_path := "vibe_output.mp4",
    filters := ["setpts=0.85*PTS", "hue=s=1.25", watermark_filter],
    used_gemini := false, trial_watermark := true }

/-- The outcome of the successful empty-remote run used as a C10 instance. -/
def res_remote_empty : VibeEditResult :=
  { output_path := "vibe_output.mp4",
    filters := ["hue=s=1", "hue=s=1", watermark_filter],
    used_gemini := true, trial_watermark := true }

/-! ### Helper lemmas -/

/-- The padding loop appends exactly the neutral directives needed to reach
length 3 (and nothing when the list is already long enough), given enough
fuel. -/
theorem pad_loop_spec (fuel : Nat) (fs : List String) (hfuel : 3 - fs.length ≤ fuel) :
    pad_loop fuel fs = fs ++ List.replicate (3 - fs.length) "hue=s=1" := by
  induction fuel generalizing fs with
  | zero =>
    have h0 : 3 - fs.length = 0 := by omega
    unfold pad_loop
    rw [h0]
    simp
  | succ k ih =>
    unfold pad_loop
    by_cases hlt : fs.length < 3
    · rw [if_pos hlt]
      rw [ih (fs ++ ["hue=s=1"]) (by simp [List.length_append]; omega)]
      rw [List.append_assoc]
      congr 1
      have h1 : 3 - fs.length = (3 - (fs ++ ["hue=s=1"]).length) + 1 := by
        simp [List.length_append]
        omega
      rw [h1]
      simp [List.replicate_succ]
    · rw [if_neg hlt]
      have h0 : 3 - fs.length = 0 := by omega
      rw [h0]
      simp

/-- Closed form of the normalizer: append the needed padding, then keep the
first three entries. -/
theorem ensure_three_filters_spec (fs : List String) :
    ensure_three_filters fs = (fs ++ List.replicate (3 - fs.length) "hue=s=1").take 3 := by
  unfold ensure_three_filters
  rw [pad_loop_spec 3 fs (by omega)]

/-- The normalizer always returns exactly three entries. -/
theorem ensure_three_filters_length (fs : List String) :
    (ensure_three_filters fs).length = 3 := by
  rw [ensure_three_filters_spec]
  simp [List.length_take, List.length_append]
  omega

/-- On a three-entry chain the watermark injection takes the overwrite
branch (never the append branch). -/
theorem inject_watermark_on_three (licensed : Bool) (l : List String)
    (h : l.length = 3) :
    inject_watermark licensed l = if licensed then l else l.set 2 watermark_filter := by
  cases licensed <;> simp [inject_watermark, h]

/-- The chain sent to the transcoder always has exactly three entries. -/
theorem applied_chain_length (prompt : String) (genv : GeminiEnv) (licensed : Bool) :
    (applied_chain prompt genv licensed).length = 3 := by
  unfold applied_chain
  rw [inject_watermark_on_three _ _ (ensure_three_filters_length _)]
  cases licensed <;> simp [ensure_three_filters_length]

/-- For an unlicensed request the sent chain carries the watermark at index
2 and keeps the first two normalized entries. -/
theorem applied_chain_unlicensed (prompt : String) (genv : GeminiEnv) :
    (applied_chain prompt genv false).get? 2 = some watermark_filter
    ∧ (applied_chain prompt genv false).take 2
        = (ensure_three_filters (resolve_filters prompt genv).1).take 2 := by
  obtain ⟨a, b, c, h3⟩ :=
    List.length_eq_three.mp (ensure_three_filters_length (resolve_filters prompt genv).1)
  unfold applied_chain
  rw [h3]
  simp [inject_watermark]

/-- For a licensed request the sent chain is exactly the normalized
resolver output. -/
theorem applied_chain_licensed (prompt : String) (genv : GeminiEnv) :
    applied_chain prompt genv true = ensure_three_filters (resolve_filters prompt genv).1 := by
  simp [applied_chain, inject_watermark]

/-- Under a successful licensing step the run is the post-license body. -/
theorem vibe_edit_after_license (input prompt : String) (lk : Option String)
    (ov : Option Bool) (env : Env) (licensed : Bool)
    (hl : license_step lk env.licenseQuery = Except.ok licensed) :
    vibe_edit input prompt lk ov env = edit_after_license input prompt ov env licensed := by
  unfold vibe_edit
  rw [hl]

/-- Whenever the post-license body is reached, the `-vf` argument passed to
ffmpeg is the comma-joined applied chain. -/
theorem edit_after_license_sent_vf (input prompt : String) (ov : Option Bool)
    (env : Env) (licensed : Bool) :
    (edit_after_license input prompt ov env licensed).sent_vf
      = some (String.intercalate "," (applied_chain prompt env.geminiEnv licensed)) := by
  unfold edit_after_license
  cases hf : env.ffmpeg with
  | error e => simp [applied_chain]
  | ok f =>
    by_cases hs : f.exitSuccess = false
    · simp [hs, applied_chain]
    · simp only [hs, if_false]
      cases ho : overlay_result input (with_file_name input "vibe_output.mp4") env
          (ov.getD (wants_overlay prompt)) with
      | error e => simp [applied_chain]
      | ok final_output =>
        cases hi : env.insertOutcome with
        | error e => simp [applied_chain]
        | ok u => simp [applied_chain]

/-- A successful run returns exactly the applied chain, the resolver's
remote flag, and the negated licensing flag. -/
theorem edit_after_license_ok (input prompt : String) (ov : Option Bool)
    (env : Env) (licensed : Bool) (res : VibeEditResult)
    (h : (edit_after_license input prompt ov env licensed).result = Except.ok res) :
    res.filters = applied_chain prompt env.geminiEnv licensed
    ∧ res.used_gemini = (resolve_filters prompt env.geminiEnv).2
    ∧ res.trial_watermark = !licensed := by
  unfold edit_after_license at h
  cases hf : env.ffmpeg with
  | error e => rw [hf] at h; simp at h
  | ok f =>
    rw [hf] at h
    by_cases hs : f.exitSuccess = false
    · simp [hs] at h
    · simp only [hs, if_false] at h
      cases ho : overlay_result input (with_file_name input "vibe_output.mp4") env
          (ov.getD (wants_overlay prompt)) with
      | error e => rw [ho] at h; simp at h
      | ok final_output =>
        rw [ho] at h
        cases hi : env.insertOutcome with
        | error e => rw [hi] at h; simp at h
        | ok u =>
          rw [hi] at h
          simp at h
          rw [← h]
          exact ⟨rfl, rfl, rfl⟩

/-- The overlay block keeps the pre-overlay output when the overlay is not
requested or the entry-point script is missing. -/
theorem overlay_result_skip (input output : String) (env : Env) (r : Bool)
    (h : r = false ∨ env.scriptExists = false) :
    overlay_result input output env r = Except.ok output := by
  unfold overlay_result
  rcases h with h | h
  · simp [h]
  · cases r <;> simp [h]

/-- The overlay block keeps the pre-overlay output when the node process
exits non-zero. -/
theorem overlay_result_node_fail (input output : String) (env : Env) (n : ProcOutput)
    (hr : env.scriptExists = true) (hn : env.nodeRun = Except.ok n)
    (hx : n.exitSuccess = false) :
    overlay_result input output env true = Except.ok output := by
  unfold overlay_result
  simp [hr, hn, hx]

/-- The overlay block propagates a node launch error (the source's `?`). -/
theorem overlay_result_launch_fail (input output : String) (env : Env) (e : String)
    (hr : env.scriptExists = true) (hn : env.nodeRun = Except.error e) :
    overlay_result input output env true = Except.error e := by
  unfold overlay_result
  simp [hr, hn]

/-- Full trace of a run whose transcode, overlay block and insert all
complete. -/
theorem edit_after_license_success (input prompt : String) (ov : Option Bool)
    (env : Env) (licensed : Bool) (f : ProcOutput) (fo : String)
    (hf : env.ffmpeg = Except.ok f) (hs : f.exitSuccess = true)
    (ho : overlay_result input (with_file_name input "vibe_output.mp4") env
        (ov.getD (wants_overlay prompt)) = Except.ok fo)
    (hi : env.insertOutcome = Except.ok ()) :
    edit_after_license input prompt ov env licensed =
      { result := Except.ok
          { output_path := fo,
            filters := applied_chain prompt env.geminiEnv licensed,
            used_gemini := (resolve_filters prompt env.geminiEnv).2,
            trial_watermark := !licensed },
        persisted := [{ input_path := input, output_path := fo, prompt := prompt }],
        sent_vf := some (String.intercalate ","
          (applied_chain prompt env.geminiEnv licensed)),
        overlay_attempted := some (ov.getD (wants_overlay prompt)) } := by
  unfold edit_after_license
  rw [hf]
  simp [hs, ho, hi, applied_chain]

/-- Full trace of a run whose overlay block errors (node launch failure):
the request fails and nothing is persisted. -/
theorem edit_after_license_overlay_error (input prompt : String) (ov : Option Bool)
    (env : Env) (licensed : Bool) (f : ProcOutput) (e : String)
    (hf : env.ffmpeg = Except.ok f) (hs : f.exitSuccess = true)
    (ho : overlay_result input (with_file_name input "vibe_output.mp4") env
        (ov.getD (wants_overlay prompt)) = Except.error e) :
    edit_after_license input prompt ov env licensed =
      { result := Except.error e,
        persisted := [],
        sent_vf := some (String.intercalate ","
          (applied_chain prompt env.geminiEnv licensed)),
        overlay_attempted := some (ov.getD (wants_overlay prompt)) } := by
  unfold edit_after_license
  rw [hf]
  simp [hs, ho, applied_chain]

/-- Once the transcode succeeds, the recorded overlay decision is the
explicit flag when provided, else the prompt heuristic. -/
theorem edit_after_license_overlay_attempted (input prompt : String) (ov : Option Bool)
    (env : Env) (licensed : Bool) (f : ProcOutput)
    (hf : env.ffmpeg = Except.ok f) (hs : f.exitSuccess = true) :
    (edit_after_license input prompt ov env licensed).overlay_attempted
      = some (ov.getD (wants_overlay prompt)) := by
  unfold edit_after_license
  rw [hf]
  simp only [hs]
  cases ho : overlay_result input (with_file_name input "vibe_output.mp4") env
      (ov.getD (wants_overlay prompt)) with
  | error e => simp [ho]
  | ok fo =>
    cases hi : env.insertOutcome with
    | error e => simp [ho, hi]
    | ok u => simp [ho, hi]

/-! ### Claim theorems -/

/-- C1: for every edit request that passes the licensing step unlicensed,
slot index 2 of the chain sent to the transcoder is the fixed TRIAL
drawtext directive (replacing whatever occupied that slot, the first two
normalized entries being kept), the `trial_watermark` flag of a returned
outcome is true iff the request is unlicensed, and for licensed requests
the chain is the untouched normalized resolver output. -/
theorem C1_trial_watermark (input prompt : String) (lk : Option String)
    (ov : Option Bool) (env : Env) (licensed : Bool)
    (hl : license_step lk env.licenseQuery = Except.ok licensed) :
    (vibe_edit input prompt lk ov env).sent_vf
        = some (String.intercalate "," (applied_chain prompt env.geminiEnv licensed))
    ∧ (licensed = false →
        (applied_chain prompt env.geminiEnv licensed).get? 2 = some watermark_filter
        ∧ (applied_chain prompt env.geminiEnv licensed).take 2
            = (ensure_three_filters (resolve_filters prompt env.geminiEnv).1).take 2)
    ∧ (licensed = true →
        applied_chain prompt env.geminiEnv licensed
          = ensure_three_filters (resolve_filters prompt env.geminiEnv).1)
    ∧ (∀ res, (vibe_edit input prompt lk ov env).result = Except.ok res →
        res.trial_watermark = !licensed) := by
  rw [vibe_edit_after_license input prompt lk ov env licensed hl]
  refine ⟨edit_after_license_sent_vf input prompt ov env licensed, ?_, ?_, ?_⟩
  · intro h
    subst h
    exact applied_chain_unlicensed prompt env.geminiEnv
  · intro h
    subst h
    exact applied_chain_licensed prompt env.geminiEnv
  · intro res h
    exact (edit_after_license_ok input prompt ov env licensed res h).2.2

/-- C1 witness: an unlicensed concrete run carries the watermark at slot 2
of the chain sent to the transcoder. -/
theorem C1_trial_watermark_witness :
    (applied_chain "make it chill" env_ok.geminiEnv false).get? 2 = some watermark_filter
    ∧ (vibe_edit "clip.mp4" "make it chill" none none env_ok).sent_vf
        = some (String.intercalate "," (applied_chain "make it chill" env_ok.geminiEnv false)) := by
  have h := C1_trial_watermark "clip.mp4" "make it chill" none none env_ok false rfl
  exact ⟨(h.2.1 rfl).1, h.1⟩

/-- C2: normalization always returns exactly three directives, padding
short candidate lists at the end with the neutral saturation directive and
truncating long ones to their first three entries in order. -/
theorem C2_normalize_three (fs : List String) :
    (ensure_three_filters fs).length = 3
    ∧ ensure_three_filters fs
        = (fs ++ List.replicate (3 - fs.length) "hue=s=1").take 3 :=
  ⟨ensure_three_filters_length fs, ensure_three_filters_spec fs⟩

/-- C3: when ffmpeg exits non-zero the request fails, nothing is persisted,
and the error is the fixed generic message on empty stderr and otherwise
the first at-most-5 stderr lines joined with spaces after the fixed
failure prefix. -/
theorem C3_transcode_failure (input prompt : String) (lk : Option String)
    (ov : Option Bool) (env : Env) (licensed : Bool) (f : ProcOutput)
    (hl : license_step lk env.licenseQuery = Except.ok licensed)
    (hf : env.ffmpeg = Except.ok f) (hs : f.exitSuccess = false) :
    (vibe_edit input prompt lk ov env).result
        = Except.error (if f.stderr.data.isEmpty then
            "FFmpeg failed (no stderr). Check ffmpeg is installed and path is valid."
          else
            "FFmpeg failed: " ++ String.intercalate " " ((rust_lines f.stderr).take 5))
    ∧ (vibe_edit input prompt lk ov env).persisted = [] := by
  rw [vibe_edit_after_license input prompt lk ov env licensed hl]
  unfold edit_after_license
  rw [hf]
  simp [hs, ffmpeg_fail_msg]

/-- C3 witness: a concrete non-zero ffmpeg exit with empty stderr yields
the fixed generic message and persists nothing. -/
theorem C3_transcode_failure_witness :
    (vibe_edit "clip.mp4" "make it pop" none none env_ffmpeg_fail).result
        = Except.error
            "FFmpeg failed (no stderr). Check ffmpeg is installed and path is valid."
    ∧ (vibe_edit "clip.mp4" "make it pop" none none env_ffmpeg_fail).persisted = [] := by
  have h := C3_transcode_failure "clip.mp4" "make it pop" none none env_ffmpeg_fail
    false { exitSuccess := false, stdout := "", stderr := "" } rfl rfl rfl
  exact ⟨h.1.trans rfl, h.2⟩

/-- C4 counterexample: with the transcode successful, the overlay requested
by the prompt, the entry-point script present and the node process failing
to launch, the whole request fails and nothing is persisted — an overlay
failure that is not absorbed, contradicting the claim that no overlay
failure of any kind fails the request. -/
theorem C4_counterexample :
    (vibe_edit "clip.mp4" "overlay" none none env_overlay_launch_fail).result
        = Except.error "node launch failed"
    ∧ (vibe_edit "clip.mp4" "overlay" none none env_overlay_launch_fail).persisted = [] :=
  ⟨rfl, rfl⟩

/-- C4 amended: a missing entry-point script and a non-zero overlay exit
are absorbed — the request still succeeds with the pre-overlay transcoded
output — but an error launching the overlay process is propagated and
fails the whole request. -/
theorem C4_overlay_absorption (input prompt : String) (lk : Option String)
    (ov : Option Bool) (env : Env) (licensed : Bool) (f : ProcOutput)
    (hl : license_step lk env.licenseQuery = Except.ok licensed)
    (hf : env.ffmpeg = Except.ok f) (hs : f.exitSuccess = true)
    (hi : env.insertOutcome = Except.ok ()) :
    (ov.getD (wants_overlay prompt) = false ∨ env.scriptExists = false →
      (vibe_edit input prompt lk ov env).result
          = Except.ok
              { output_path := with_file_name input "vibe_output.mp4",
                filters := applied_chain prompt env.geminiEnv licensed,
                used_gemini := (resolve_filters prompt env.geminiEnv).2,
                trial_watermark := !licensed })
    ∧ (∀ n, ov.getD (wants_overlay prompt) = true → env.scriptExists = true →
        env.nodeRun = Except.ok n → n.exitSuccess = false →
        (vibe_edit input prompt lk ov env).result
            = Except.ok
                { output_path := with_file_name input "vibe_output.mp4",
                  filters := applied_chain prompt env.geminiEnv licensed,
                  used_gemini := (resolve_filters prompt env.geminiEnv).2,
                  trial_watermark := !licensed })
    ∧ (∀ e, ov.getD (wants_overlay prompt) = true → env.scriptExists = true →
        env.nodeRun = Except.error e →
        (vibe_edit input prompt lk ov env).result = Except.error e
        ∧ (vibe_edit input prompt lk ov env).persisted = []) := by
  rw [vibe_edit_after_license input prompt lk ov env licensed hl]
  refine ⟨?_, ?_, ?_⟩
  · intro h
    rw [edit_after_license_success input prompt ov env licensed f
      (with_file_name input "vibe_output.mp4") hf hs
      (overlay_result_skip input (with_file_name input "vibe_output.mp4") env
        (ov.getD (wants_overlay prompt)) h) hi]
  · intro n hr hsx hn hx
    rw [edit_after_license_success input prompt ov env licensed f
      (with_file_name input "vibe_output.mp4") hf hs
      (by rw [hr]
          exact overlay_result_node_fail input (with_file_name input "vibe_output.mp4")
            env n hsx hn hx) hi]
  · intro e hr hsx hn
    rw [edit_after_license_overlay_error input prompt ov env licensed f e hf hs
      (by rw [hr]
          exact overlay_result_launch_fail input (with_file_name input "vibe_output.mp4")
            env e hsx hn)]
    exact ⟨rfl, rfl⟩

/-- C4 amended witness: a concrete run whose overlay launch fails errors
out with the launch message and persists nothing. -/
theorem C4_overlay_absorption_witness :
    (vibe_edit "clip.mp4" "add animation please" none none env_overlay_launch_fail).result
        = Except.error "node launch failed"
    ∧ (vibe_edit "clip.mp4" "add animation please" none none
        env_overlay_launch_fail).persisted = [] := by
  have h := C4_overlay_absorption "clip.mp4" "add animation please" none none
    env_overlay_launch_fail false { exitSuccess := true, stdout := "", stderr := "" }
    rfl rfl rfl rfl
  exact h.2.2 "node launch failed" (by decide) rfl rfl

/-- The overlay block reads only the script-existence flag and the node
outcome from the environment. -/
theorem overlay_result_congr (input output : String) (envA envB : Env) (r : Bool)
    (h1 : envA.scriptExists = envB.scriptExists) (h2 : envA.nodeRun = envB.nodeRun) :
    overlay_result input output envA r = overlay_result input output envB r := by
  unfold overlay_result
  rw [h1, h2]

/-- C5: whenever the remote inference path fails (at any step), the run
resolves to the deterministic fallback chain as a unit with the remote
flag false, the chain sent to the transcoder is the watermarked normalized
fallback chain, and the run is identical for any other failing remote
environment — the remote failure itself is never surfaced. -/
theorem C5_remote_failure_fallback (input prompt : String) (lk : Option String)
    (ov : Option Bool) (env : Env) (licensed : Bool) (e : String)
    (hg : gemini_filters prompt env.geminiEnv = Except.error e)
    (hl : license_step lk env.licenseQuery = Except.ok licensed) :
    resolve_filters prompt env.geminiEnv = (fallback_filters prompt, false)
    ∧ (vibe_edit input prompt lk ov env).sent_vf
        = some (String.intercalate ","
            (inject_watermark licensed (ensure_three_filters (fallback_filters prompt))))
    ∧ (∀ res, (vibe_edit input prompt lk ov env).result = Except.ok res →
        res.used_gemini = false
        ∧ res.filters
            = inject_watermark licensed (ensure_three_filters (fallback_filters prompt)))
    ∧ (∀ genv2 e2, gemini_filters prompt genv2 = Except.error e2 →
        vibe_edit input prompt lk ov { env with geminiEnv := genv2 }
          = vibe_edit input prompt lk ov env) := by
  have hres : resolve_filters prompt env.geminiEnv = (fallback_filters prompt, false) := by
    unfold resolve_filters
    rw [hg]
  have hchain : applied_chain prompt env.geminiEnv licensed
      = inject_watermark licensed (ensure_three_filters (fallback_filters prompt)) := by
    unfold applied_chain
    rw [hres]
  refine ⟨hres, ?_, ?_, ?_⟩
  · rw [vibe_edit_after_license input prompt lk ov env licensed hl,
      edit_after_license_sent_vf input prompt ov env licensed, hchain]
  · intro res h
    rw [vibe_edit_after_license input prompt lk ov env licensed hl] at h
    obtain ⟨hfil, hused, hwm⟩ := edit_after_license_ok input prompt ov env licensed res h
    refine ⟨?_, ?_⟩
    · rw [hused, hres]
    · rw [hfil, hchain]
  · intro genv2 e2 hg2
    have hres2 : resolve_filters prompt genv2 = (fallback_filters prompt, false) := by
      unfold resolve_filters
      rw [hg2]
    cases hq : license_step lk env.licenseQuery with
    | error e3 => simp [vibe_edit, hq]
    | ok l =>
      simp only [vibe_edit]
      simp [hq]
      unfold edit_after_license
      cases hff : env.ffmpeg with
      | error e3 => simp [hff, hres2, hres]
      | ok f =>
        by_cases hfs : f.exitSuccess = false
        · simp [hff, hfs, hres2, hres]
        · simp [hff, hfs, hres2, hres]
          rw [overlay_result_congr input (with_file_name input "vibe_output.mp4")
            { licenseQuery := env.licenseQuery, geminiEnv := genv2, ffmpeg := Except.ok f,
              scriptExists := env.scriptExists, nodeRun := env.nodeRun,
              insertOutcome := env.insertOutcome } env
            (ov.getD (wants_overlay prompt)) rfl rfl]

/-- C5 witness: with no credential configured, a concrete run resolves to
the fallback chain and sends its watermarked normalization to ffmpeg. -/
theorem C5_remote_failure_fallback_witness :
    resolve_filters "make it chill please" env_ok.geminiEnv
        = (fallback_filters "make it chill please", false)
    ∧ (vibe_edit "clip.mp4" "make it chill please" none none env_ok).sent_vf
        = some (String.intercalate ","
            (inject_watermark false
              (ensure_three_filters (fallback_filters "make it chill please")))) := by
  have h := C5_remote_failure_fallback "clip.mp4" "make it chill please" none none env_ok
    false "GEMINI_API_KEY not set" rfl rfl
  exact ⟨h.1, h.2.1⟩

/-- C6: the deterministic fallback is a pure function of the lower-cased
prompt, classified energetic (keywords energetic/fast) before chill
(keywords chill/calm) before the action default with first match winning;
"so energetic and calm" classifies as energetic; each mood maps to its
fixed speed/saturation/label chain. -/
theorem C6_fallback_priority (p : String) :
    fallback_filters p =
      (if contains_substr (to_lower p) "energetic" || contains_substr (to_lower p) "fast" then
        energetic_chain
      else if contains_substr (to_lower p) "chill" || contains_substr (to_lower p) "calm" then
        chill_chain
      else action_chain)
    ∧ fallback_filters "so energetic and calm" = energetic_chain
    ∧ energetic_chain = ["setpts=0.85*PTS", "hue=s=1.25",
        "drawtext=" ++ drawtext_font ++ ":text='VIBE: ENERGETIC':x=16:y=16:fontsize=24:fontcolor=white"]
    ∧ chill_chain = ["setpts=1.05*PTS", "hue=s=0.8",
        "drawtext=" ++ drawtext_font ++ ":text='VIBE: CHILL':x=16:y=16:fontsize=24:fontcolor=white"]
    ∧ action_chain = ["setpts=1.0*PTS", "hue=s=1.0",
        "drawtext=" ++ drawtext_font ++ ":text='VIBE: ACTION':x=16:y=16:fontsize=24:fontcolor=white"] :=
  ⟨rfl, by decide, rfl, rfl, rfl⟩

/-- C7: once the licensing step and the transcode succeed, overlay
compositing is attempted iff the explicit flag is true or the flag is
absent and the lower-cased prompt contains an overlay keyword; a provided
flag is honored exactly in both directions. -/
theorem C7_overlay_decision (input prompt : String) (lk : Option String)
    (ov : Option Bool) (env : Env) (licensed : Bool) (f : ProcOutput)
    (hl : license_step lk env.licenseQuery = Except.ok licensed)
    (hf : env.ffmpeg = Except.ok f) (hs : f.exitSuccess = true) :
    (vibe_edit input prompt lk ov env).overlay_attempted
        = some (ov.getD (wants_overlay prompt))
    ∧ ov.getD (wants_overlay prompt)
        = (ov == some true || (ov == none && wants_overlay prompt))
    ∧ wants_overlay prompt
        = (contains_substr (to_lower prompt) "add animation"
           || contains_substr (to_lower prompt) "animation in between"
           || contains_substr (to_lower prompt) "transparent overlay"
           || contains_substr (to_lower prompt) "overlay") := by
  refine ⟨?_, ?_, rfl⟩
  · rw [vibe_edit_after_license input prompt lk ov env licensed hl]
    exact edit_after_license_overlay_attempted input prompt ov env licensed f hf hs
  · cases ov with
    | none => simp
    | some b => cases b <;> simp

/-- C7 witness: a concrete overlay-keyword prompt with no explicit flag
attempts the overlay; the recorded decision matches the heuristic. -/
theorem C7_overlay_decision_witness :
    (vibe_edit "clip.mp4" "please add animation to this clip" none none
        env_ok).overlay_attempted = some true := by
  have h := C7_overlay_decision "clip.mp4" "please add animation to this clip" none none
    env_ok false { exitSuccess := true, stdout := "", stderr := "" } rfl rfl rfl
  exact h.1.trans (by decide)

/-- The post-license body never reads the license-store outcome. -/
theorem edit_after_license_store_congr (input prompt : String) (ov : Option Bool)
    (env : Env) (q1 q2 : Except String (List LicenseRow)) (licensed : Bool) :
    edit_after_license input prompt ov { env with licenseQuery := q1 } licensed
      = edit_after_license input prompt ov { env with licenseQuery := q2 } licensed := by
  unfold edit_after_license
  cases hff : env.ffmpeg with
  | error e => simp [hff]
  | ok f =>
    by_cases hfs : f.exitSuccess = false
    · simp [hff, hfs]
    · simp [hff, hfs]
      rw [overlay_result_congr input (with_file_name input "vibe_output.mp4")
        { licenseQuery := q1, geminiEnv := env.geminiEnv, ffmpeg := Except.ok f,
          scriptExists := env.scriptExists, nodeRun := env.nodeRun,
          insertOutcome := env.insertOutcome }
        { licenseQuery := q2, geminiEnv := env.geminiEnv, ffmpeg := Except.ok f,
          scriptExists := env.scriptExists, nodeRun := env.nodeRun,
          insertOutcome := env.insertOutcome }
        (ov.getD (wants_overlay prompt)) rfl rfl]

/-- C8: with no key supplied the licensing step returns false without
consulting the store (the run is identical under any store outcome, so no
connectivity failure can arise from it, and a returned outcome is
watermarked); with a key supplied the step returns true iff a row matches
that exact key with valid = 1, absence being a normal false result. -/
theorem C8_license_check (input prompt : String) (ov : Option Bool) (env : Env)
    (k : String) (rows : List LicenseRow)
    (q1 q2 : Except String (List LicenseRow))
    (hq : env.licenseQuery = Except.ok rows) :
    vibe_edit input prompt none ov { env with licenseQuery := q1 }
        = vibe_edit input prompt none ov { env with licenseQuery := q2 }
    ∧ license_step none q1 = Except.ok false
    ∧ license_step (some k) env.licenseQuery
        = Except.ok (rows.any (fun r => r.license_key == k && r.valid == 1))
    ∧ (∀ res, (vibe_edit input prompt none ov env).result = Except.ok res →
        res.trial_watermark = true) := by
  refine ⟨?_, rfl, ?_, ?_⟩
  · simp only [vibe_edit, license_step]
    exact edit_after_license_store_congr input prompt ov env q1 q2 false
  · unfold license_step is_license_valid
    rw [hq]
  · intro res h
    rw [vibe_edit_after_license input prompt none ov env false rfl] at h
    exact (edit_after_license_ok input prompt ov env false res h).2.2

/-- C8 witness: a stored valid key validates, the keyless step returns
false even when the store is unreachable, and a keyless run is unaffected
by the store outcome. -/
theorem C8_license_check_witness :
    license_step (some "KEY1") env_lic.licenseQuery = Except.ok true
    ∧ license_step none (Except.error "db down") = Except.ok false
    ∧ vibe_edit "clip.mp4" "x" none none
          { env_lic with licenseQuery := Except.error "db down" }
        = vibe_edit "clip.mp4" "x" none none
          { env_lic with licenseQuery := Except.ok [] } := by
  have h := C8_license_check "clip.mp4" "x" none env_lic "KEY1"
    [{ license_key := "KEY1", valid := 1 }]
    (Except.error "db down") (Except.ok []) rfl
  exact ⟨h.2.2.1.trans rfl, h.2.1, h.1⟩

/-- C9: every returned outcome carries exactly three filters, equal to the
chain that was comma-joined into the `-vf` argument of the transcoder; the
append branch of the watermark injection is unreachable after
normalization. -/
theorem C9_chain_invariant (input prompt : String) (lk : Option String)
    (ov : Option Bool) (env : Env) (res : VibeEditResult)
    (h : (vibe_edit input prompt lk ov env).result = Except.ok res) :
    res.filters.length = 3
    ∧ (vibe_edit input prompt lk ov env).sent_vf
        = some (String.intercalate "," res.filters)
    ∧ (∀ licensed fs, inject_watermark licensed (ensure_three_filters fs)
        = if licensed then ensure_three_filters fs
          else (ensure_three_filters fs).set 2 watermark_filter) := by
  cases hq : license_step lk env.licenseQuery with
  | error e =>
    rw [vibe_edit] at h
    rw [hq] at h
    simp at h
  | ok licensed =>
    rw [vibe_edit_after_license input prompt lk ov env licensed hq] at h ⊢
    obtain ⟨hfil, hused, hwm⟩ := edit_after_license_ok input prompt ov env licensed res h
    refine ⟨?_, ?_, ?_⟩
    · rw [hfil]
      exact applied_chain_length prompt env.geminiEnv licensed
    · rw [edit_after_license_sent_vf input prompt ov env licensed, hfil]
    · intro licensed2 fs
      exact inject_watermark_on_three licensed2 _ (ensure_three_filters_length fs)

/-- C9 witness: a concrete successful run returns three filters matching
the comma-joined chain sent to ffmpeg. -/
theorem C9_chain_invariant_witness :
    res_fast.filters.length = 3
    ∧ (vibe_edit "clip.mp4" "make it fast" none none env_ok).sent_vf
        = some (String.intercalate "," res_fast.filters) := by
  have h := C9_chain_invariant "clip.mp4" "make it fast" none none env_ok res_fast rfl
  exact ⟨h.1, h.2.1⟩

/-- C10: when the remote path succeeds structurally but yields fewer than
three directives, the outcome still reports the remote flag true while the
applied chain is completed with the neutral padding directive (and the
watermark at slot 2 when unlicensed) — so the remote flag does not
guarantee that any applied directive originated remotely. -/
theorem C10_remote_short (input prompt : String) (lk : Option String)
    (ov : Option Bool) (env : Env) (licensed : Bool) (fs : List String)
    (hg : gemini_filters prompt env.geminiEnv = Except.ok fs)
    (hlen : fs.length < 3)
    (hl : license_step lk env.licenseQuery = Except.ok licensed) :
    resolve_filters prompt env.geminiEnv = (fs, true)
    ∧ applied_chain prompt env.geminiEnv licensed
        = inject_watermark licensed (fs ++ List.replicate (3 - fs.length) "hue=s=1")
    ∧ (licensed = false →
        (applied_chain prompt env.geminiEnv licensed).get? 2 = some watermark_filter)
    ∧ (∀ res, (vibe_edit input prompt lk ov env).result = Except.ok res →
        res.used_gemini = true
        ∧ res.filters = applied_chain prompt env.geminiEnv licensed) := by
  have hres : resolve_filters prompt env.geminiEnv = (fs, true) := by
    unfold resolve_filters
    rw [hg]
  have hpad : ensure_three_filters fs = fs ++ List.replicate (3 - fs.length) "hue=s=1" := by
    rw [ensure_three_filters_spec]
    refine List.take_of_length_le ?_
    simp [List.length_append]
    omega
  refine ⟨hres, ?_, ?_, ?_⟩
  · unfold applied_chain
    rw [hres, hpad]
  · intro h
    subst h
    exact (applied_chain_unlicensed prompt env.geminiEnv).1
  · intro res h
    rw [vibe_edit_after_license input prompt lk ov env licensed hl] at h
    obtain ⟨hfil, hused, hwm⟩ := edit_after_license_ok input prompt ov env licensed res h
    refine ⟨?_, hfil⟩
    rw [hused, hres]

/-- C10 witness: a structurally successful remote reply with an empty
filters array yields a remote-flagged outcome whose chain is pure padding
plus the watermark. -/
theorem C10_remote_short_witness :
    resolve_filters "spooky" env_remote_empty.geminiEnv = ([], true)
    ∧ res_remote_empty.used_gemini = true
    ∧ res_remote_empty.filters = applied_chain "spooky" env_remote_empty.geminiEnv false := by
  have h := C10_remote_short "clip.mp4" "spooky" none none env_remote_empty false []
    rfl (by decide) rfl
  have h2 := h.2.2.2 res_remote_empty rfl
  exact ⟨h.1, h2.1, h2.2⟩
